import Mathlib

/-
  Verification of the followup/prep_fragalysis.py module.

  Shallow embedding conventions:
  * RDKit molecules are modelled at the granularity each function needs:
    the DummyMasker works on atoms (atomic number, hybridization, the
    boolean property named dummy, the _GasteigerCharge double property),
    while prep only needs an opaque molecule carrying its canonical
    hydrogen-stripped SMILES string.
  * Python floats are modelled as rationals; float(...) failures produce
    the vnan sentinel (matching floatify, which catches every exception).
  * pandas DataFrames are ordered association lists from column keys to
    equal-length value columns.  Object identity (needed to settle whether
    prep mutates the caller's frame) is modelled with an explicit heap of
    DataFrames addressed by natural-number handles; df.rename(...).copy()
    and df.copy() allocate fresh handles.
-/

set_option autoImplicit false

namespace PrepFragalysis

/-- The fragment of an RDKit Mol that prep observes: `MolToSmiles
(RemoveAllHs m)` is an opaque external-toolkit computation, modelled as the
stored string. -/
structure PMol where
  smiles : String
deriving DecidableEq, Repr

/-- A Python value as it can appear in a DataFrame cell or an extras dict. -/
inductive Value where
  | vstr (s : String)
  | vint (n : ℤ)
  | vnum (q : ℚ)
  | vnan
  | vbool (b : Bool)
  | vmol (m : PMol)
deriving DecidableEq, Repr

end PrepFragalysis

namespace PrepFragalysis

/-- All-digit check used by the model of Python float parsing. -/
def digitsVal (cs : List Char) : Option ℕ :=
  cs.foldl (fun acc c => match acc with
    | Option.none => Option.none
    | some n => if c.isDigit then some (10 * n + (c.toNat - 48)) else Option.none)
    (some 0)

/-- Python float() strips surrounding whitespace. -/
def isPySpace (c : Char) : Bool :=
  c == ' ' || c == '\t' || c == '\n' || c == '\r'

/-- Strip leading and trailing whitespace from a character list. -/
def trimChars (cs : List Char) : List Char :=
  ((cs.dropWhile isPySpace).reverse.dropWhile isPySpace).reverse

/-- Model of the plain-decimal fragment of the Python float() builtin:
optional sign, digits with at most one decimal point (exponents, inf, nan
and underscores are not modelled; every input exercised by the claims is
either plain decimal or unparseable). Returns Option.none when float()
would raise.  The value is assembled with mkRat over integer arithmetic. -/
def pyFloatOfString (s : String) : Option ℚ :=
  let t := trimChars s.toList
  let sb : ℤ × List Char :=
    match t with
    | '-' :: rest => (-1, rest)
    | '+' :: rest => (1, rest)
    | _ => (1, t)
  let sign := sb.1
  let body := sb.2
  match body.splitOn '.' with
  | [intPart] =>
      if intPart.isEmpty then Option.none
      else (digitsVal intPart).map (fun n => mkRat (sign * (n : ℤ)) 1)
  | [intPart, fracPart] =>
      if intPart.isEmpty && fracPart.isEmpty then Option.none
      else
        match digitsVal intPart, digitsVal fracPart with
        | some ip, some fp =>
            some (mkRat (sign * ((ip : ℤ) * (10 : ℤ) ^ fracPart.length + (fp : ℤ)))
              ((10 : ℕ) ^ fracPart.length))
        | _, _ => Option.none
  | _ => Option.none

/-- floatify (prep_fragalysis.py lines 24-28): float(value), with every
exception caught and replaced by float(nan). -/
def floatify : Value → Value
  | .vint n => .vnum n
  | .vnum q => .vnum q
  | .vbool b => .vnum (if b then 1 else 0)
  | .vnan => .vnan
  | .vstr s => match pyFloatOfString s with
      | some q => .vnum q
      | Option.none => .vnan
  | .vmol _ => .vnan

/-- Model of str(value).  The float repr is exact for integral values (the
only ones the claims exercise); non-integral rationals are rendered as a
fraction, a deliberate simplification of repr(float). -/
def pyStr : Value → String
  | .vstr s => s
  | .vint n => toString n
  | .vnum q => if q.den = 1 then toString q.num ++ ".0"
               else toString q.num ++ "/" ++ toString q.den
  | .vnan => "nan"
  | .vbool b => if b then "True" else "False"
  | .vmol m => "Mol " ++ m.smiles

end PrepFragalysis

namespace PrepFragalysis

/-- RDKit hybridization states (only SP3 is ever written by the code). -/
inductive Hybridization where
  | S | SP | SP2 | SP3 | UNSPECIFIED
deriving DecidableEq, Repr

/-- The fragment of an RDKit Atom that DummyMasker observes: atomic number,
hybridization, presence of the boolean property named dummy, and the
optional _GasteigerCharge double property. -/
structure Atom where
  atomicNum : ℕ
  hybridization : Hybridization
  hasDummyProp : Bool
  gasteiger : Option ℚ
deriving DecidableEq, Repr

instance : Inhabited Atom := ⟨⟨0, .UNSPECIFIED, false, Option.none⟩⟩

/-- A molecule for the masker: atoms are addressed by index 0..numAtoms-1
(atom identity in RDKit is the index within the owning molecule). -/
structure Mol where
  numAtoms : ℕ
  atom : ℕ → Atom

def getAtom (m : Mol) (i : ℕ) : Atom := m.atom i

def setAtom (m : Mol) (i : ℕ) (a : Atom) : Mol :=
  { m with atom := fun j => if j = i then a else m.atom j }

/-- mol.GetAtomsMatchingQuery(AtomNumEqualsQueryAtom(0)) (line 170): the
indices of the atoms whose atomic number is the wildcard sentinel 0. -/
def zeroIndices (m : Mol) : List ℕ :=
  (List.range m.numAtoms).filter (fun i => (m.atom i).atomicNum == 0)

/-- DummyMasker state (lines 162-170).  self.mol is threaded explicitly
through mask/unmask since the embedding is pure. -/
structure DummyMasker where
  zahl : ℕ
  blank_Gasteiger : Bool
  dummies : List ℕ
  is_masked : Bool
deriving DecidableEq, Repr

/-- DummyMasker.__init__ (lines 162-170). -/
def mkDummyMasker (mol : Mol) (placekeeper_zahl : ℕ := 6)
    (blank_Gasteiger : Bool := true) : DummyMasker :=
  { zahl := placekeeper_zahl
    blank_Gasteiger := blank_Gasteiger
    dummies := zeroIndices mol
    is_masked := false }

/-- Net effect on one atom of the loop body of mask (lines 173-176):
SetAtomicNum(zahl); SetBoolProp(dummy, True); SetHybridization(SP3). -/
def maskAtom (zahl : ℕ) (a : Atom) : Atom :=
  { a with atomicNum := zahl, hasDummyProp := true, hybridization := .SP3 }

/-- Fold applying an atom update at each index in turn (the for-loop shape
shared by mask and the generic update lemmas). -/
def updFold (f : Atom → Atom) (L : List ℕ) (mol : Mol) : Mol :=
  L.foldl (fun mo i => setAtom mo i (f (getAtom mo i))) mol

/-- DummyMasker.mask (lines 172-177). -/
def DummyMasker.mask (m : DummyMasker) (mol : Mol) : DummyMasker × Mol :=
  ({ m with is_masked := true }, updFold (maskAtom m.zahl) m.dummies mol)

/-- Net effect on one atom of the loop body of unmask after the assert
(lines 182-184): SetAtomicNum(0); if HasProp(_GasteigerCharge) and
blank_Gasteiger: SetDoubleProp(_GasteigerCharge, 0.). -/
def unmaskAtom (bg : Bool) (a : Atom) : Atom :=
  { a with atomicNum := 0
           gasteiger := if a.gasteiger.isSome && bg then some 0 else a.gasteiger }

/-- The unmask loop (lines 180-184): per atom, assert the dummy property is
still present (aborting the loop when not), then restore the atom. -/
def unmaskRun (bg : Bool) : List ℕ → Mol → Mol × Bool
  | [], mol => (mol, true)
  | i :: rest, mol =>
      let a := getAtom mol i
      if a.hasDummyProp then unmaskRun bg rest (setAtom mol i (unmaskAtom bg a))
      else (mol, false)

/-- Message of the assert on line 181. -/
def assertMsg : String :=
  "AssertionError: The atoms have changed somehow? (weird cornercase)"

/-- DummyMasker.unmask (lines 179-185): the failed assert surfaces as an
AssertionError (the partially restored molecule is abandoned with the
raised exception). -/
def DummyMasker.unmask (m : DummyMasker) (mol : Mol) :
    Except String (DummyMasker × Mol) :=
  let r := unmaskRun m.blank_Gasteiger m.dummies mol
  if r.2 then .ok ({ m with is_masked := false }, r.1)
  else .error assertMsg

/-- Outcome of the body of a with-statement: either a normal value or a
raised exception, together with the molecule as the body left it. -/
inductive BodyResult (α : Type) where
  | normal (a : α) (mol : Mol)
  | raised (e : String) (mol : Mol)

/-- Result of running a with DummyMasker(...) block. -/
structure WithResult (α : Type) where
  mol : Mol
  outcome : Except String α

/-- Python with-statement semantics over __enter__/__exit__ (lines
187-192): mask on entry; unmask exactly once on every exit path.  When the
body raised and unmask succeeds, __exit__ returns None so the original
exception propagates; when unmask itself raises, its AssertionError is the
one that propagates. -/
def withMasker {α : Type} (m0 : DummyMasker) (mol : Mol)
    (body : Mol → BodyResult α) : WithResult α :=
  let p := m0.mask mol
  match body p.2 with
  | .normal a molb =>
      match p.1.unmask molb with
      | .ok pr => ⟨pr.2, .ok a⟩
      | .error msg => ⟨molb, .error msg⟩
  | .raised e molb =>
      match p.1.unmask molb with
      | .ok pr => ⟨pr.2, .error e⟩
      | .error msg => ⟨molb, .error msg⟩

end PrepFragalysis

namespace PrepFragalysis

/-- A 3D point, as a rational triple. -/
abbrev Point3 := ℚ × ℚ × ℚ

/-- A molecule as align observes it: atoms (atomic numbers) plus the list
of conformers, each a coordinate per atom. -/
structure RMol where
  atoms : List ℕ
  conformers : List (List Point3)
deriving DecidableEq, Repr

/-- The rigid rototranslation returned by GetAlignmentTransform, abstracted
to the map it induces on coordinates (its computation is an external
collaborator, so align is parameterised over it). -/
abbrev RotoTrans := Point3 → Point3

/-- Chem.Mol() with no argument: the empty molecule (no atoms, no
conformers). -/
def emptyRMol : RMol := ⟨[], []⟩

/-- mol.GetConformer(): the default conformer, raising when the molecule
has none (the RDKit Bad Conformer Id error). -/
def getConformer (m : RMol) : Except String (List Point3) :=
  match m.conformers.head? with
  | some c => .ok c
  | Option.none => .error "Bad Conformer Id"

/-- AllChem.TransformConformer: applies the transform to every position of
a conformer (in RDKit this mutates the conformer and returns nothing; the
transformed coordinates are returned here and the caller decides what to
keep, mirroring how the source discards them). -/
def transformConformer (t : RotoTrans) (c : List Point3) : List Point3 :=
  c.map t

/-- align (prep_fragalysis.py lines 7-22), parameterised over the external
GetAlignmentTransform.  Faithful to the source: the first apply replaces
every entry by a fresh empty Chem.Mol(); the second apply calls
TransformConformer on each empty molecule's default conformer (raising Bad
Conformer Id on the first one when the series is nonempty) and its results
are discarded; the series of empty molecules is returned. -/
def align (getAlignmentTransform : RMol → RMol → RotoTrans)
    (mol_series : List RMol) (ref_hit used_hit : RMol) :
    Except String (List RMol) :=
  let rototrans := getAlignmentTransform used_hit ref_hit
  let new_mols := mol_series.map (fun _ => emptyRMol)
  match new_mols.mapM (fun mol =>
      (getConformer mol).map (transformConformer rototrans)) with
  | .ok _ => .ok new_mols
  | .error e => .error e

/-- Modelled from the spec: align is required to compute the one rigid
transform mapping the used frame onto the true frame and return a new
sequence of transformed copies of the input molecules (same atoms, each
conformer's coordinates transformed), leaving the originals intact. -/
def alignSpec (getAlignmentTransform : RMol → RMol → RotoTrans)
    (mol_series : List RMol) (ref_hit used_hit : RMol) : List RMol :=
  let rototrans := getAlignmentTransform used_hit ref_hit
  mol_series.map (fun mol =>
    { mol with conformers := mol.conformers.map (transformConformer rototrans) })

end PrepFragalysis

namespace PrepFragalysis

/-- A pandas column label: a plain string or a tuple (tuple elements are
already strings after the str() coercion applied by the rename on line
55). -/
inductive ColKey where
  | str (s : String)
  | tup (parts : List String)
deriving DecidableEq, Repr

/-- The column label as the Python value appended by the extras auto-scan
loop (all labels are plain strings by then, since the rename on line 55
already converted every tuple). -/
def colName : ColKey → String
  | .str s => s
  | .tup parts => String.intercalate ":" parts

/-- A DataFrame: ordered association list from column label to its cells
(all columns have the row count as their length). -/
abbrev Df := List (ColKey × List Value)

/-- c in df.columns, for a string label. -/
def hasCol (df : Df) (c : String) : Bool :=
  df.any (fun p => p.1 == ColKey.str c)

/-- df[c] for a string label (caller must know the column exists). -/
def getCol (df : Df) (c : String) : List Value :=
  ((df.find? (fun p => p.1 == ColKey.str c)).map Prod.snd).getD []

/-- Number of rows. -/
def nRows (df : Df) : ℕ :=
  ((df.head?).map (fun p => p.2.length)).getD 0

/-- df[c] = vs: overwrite the column in place when present, else append it
as the new last column (pandas column-assignment semantics). -/
def setCol (df : Df) (c : String) (vs : List Value) : Df :=
  if hasCol df c then
    df.map (fun p => if p.1 == ColKey.str c then (p.1, vs) else p)
  else df ++ [(ColKey.str c, vs)]

/-- Line 55: df.rename(columns = tuple keys joined by colon). -/
def renameTupleCols (df : Df) : Df :=
  df.map (fun p => match p.1 with
    | ColKey.tup parts => (ColKey.str (String.intercalate ":" parts), p.2)
    | k => (k, p.2))

/-- Python truthiness of an Optional[str] argument. -/
def truthyStr : Option String → Bool
  | Option.none => false
  | some s => !s.isEmpty

/-- Lines 57-62: resolve the ref_mols column.  In the source the final
branch evaluates ValueError(...) WITHOUT raising it, so it is a no-op: the
column is simply left absent. -/
def stepRefMols (df : Df) (ref_mol_names : Option String) : Df :=
  if hasCol df "ref_mols" then df
  else if truthyStr ref_mol_names then
    setCol df "ref_mols" (List.replicate (nRows df) (.vstr (ref_mol_names.getD "")))
  else df

/-- Chem.MolToSmiles(AllChem.RemoveAllHs(cell)): external toolkit
composition; raises a TypeError when the cell is not a Mol. -/
def toSmilesE : Value → Except String String
  | .vmol m => .ok m.smiles
  | _ => .error "TypeError: RemoveAllHs expects a Mol"

/-- Lines 63-66: resolve the original SMILES column, deriving it from the
molecule column when absent (KeyError when the molecule column itself is
missing). -/
def stepSmiles (df : Df) (mol_col : String) : Except String Df :=
  if hasCol df "original SMILES" then .ok df
  else do
    let col ← if hasCol df mol_col then Except.ok (getCol df mol_col)
              else Except.error ("KeyError: " ++ mol_col)
    let smis ← col.mapM toSmilesE
    Except.ok (setCol df "original SMILES" (smis.map Value.vstr))

/-- Lines 67-72: resolve the ref_pdb column; same shape as stepRefMols,
including the constructed-but-unraised ValueError. -/
def stepRefPdb (df : Df) (ref_pdb_name : Option String) : Df :=
  if hasCol df "ref_pdb" then df
  else if truthyStr ref_pdb_name then
    setCol df "ref_pdb" (List.replicate (nRows df) (.vstr (ref_pdb_name.getD "")))
  else df

/-- Exact rational addition written through mkRat (Rat.add is irreducible,
which would block concrete evaluation; this is the same rational sum). -/
def qadd (a b : ℚ) : ℚ := mkRat (a.num * b.den + b.num * a.den) (a.den * b.den)

/-- Sum of a list of rationals through qadd. -/
def qsum (l : List ℚ) : ℚ := l.foldr qadd 0

/-- df[col].fillna(0).apply(abs).sum() > 0, on an already floatified
column (line 80). -/
def colNonzero (vs : List Value) : Bool :=
  decide (0 < qsum (vs.map (fun v => match v with
    | Value.vnum q => |q|
    | _ => (0 : ℚ))))

/-- The extras auto-scan loop (lines 77-81): every column is overwritten
with its floatified values, and the labels of the columns whose floatified
values have a nonzero absolute sum are collected in order.  Each column's
update and test only involve that column, so the sequential loop equals
this columnwise map/filter. -/
def autoScan (df : Df) : Df × List String :=
  (df.map (fun p => (p.1, p.2.map floatify)),
   (df.filter (fun p => colNonzero (p.2.map floatify))).map (fun p => colName p.1))

/-- The extras argument of prep: None, the auto sentinel True, a dict, a
list, or any other value (which hits the raise on line 87). -/
inductive ExtrasArg where
  | nil
  | auto
  | dict (kvs : List (String × Value))
  | flist (fields : List String)
  | invalid
deriving Repr

/-- Lines 74-87: resolve extras.  The auto branch rebinds the name extras
to the selected labels but never assigns extra_fields, so extra_fields is
left unbound there (modelled as Option.none) and its later use on line 96
raises a NameError. -/
def stepExtras (df : Df) (e : ExtrasArg) :
    Except String (Df × Option (List String)) :=
  match e with
  | .nil => .ok (df, some [])
  | .auto => .ok ((autoScan df).1, Option.none)
  | .dict kvs => .ok (df, some (kvs.map Prod.fst))
  | .flist fs => .ok (df, some fs)
  | .invalid => .error "ValueError: extras should be a dict or a list"

/-- Character class of the regex word metacharacter (ASCII fragment of the
Unicode class used by Python re on str). -/
def pyIsWordChar (c : Char) : Bool := c.isAlphanum || c == '_'

/-- str.replace of every non-word character by an underscore (line 90):
per character, not per run. -/
def sanitizeChars (cs : List Char) : List Char :=
  cs.map (fun c => if pyIsWordChar c then c else '_')

/-- Lines 89-91: str(value), regex substitution, then the slice
[:letter_trim]. -/
def sanitizeName (letter_trim : ℕ) (s : String) : String :=
  ((sanitizeChars s.toList).take letter_trim).asString

/-- Lines 89-91 applied to the name column (KeyError when it is absent). -/
def stepSanitize (df : Df) (name_col : String) (letter_trim : ℕ) :
    Except String Df :=
  if hasCol df name_col then
    .ok (setCol df name_col ((getCol df name_col).map
      (fun v => Value.vstr (sanitizeName letter_trim (pyStr v)))))
  else .error ("KeyError: " ++ name_col)

end PrepFragalysis

namespace PrepFragalysis

/-- The header Chem.Mol as generate_header populates it: the _Name property
and the ordered string properties (MolFromSmiles and EmbedMolecule build
the underlying structure and are external collaborators, not observed by
any claim). -/
structure HeaderMol where
  name : String
  props : List (String × String)
deriving DecidableEq, Repr

/-- GetProp lookup; SetProp overwrites, so the LAST assignment of a key
wins. -/
def HeaderMol.getProp (h : HeaderMol) (k : String) : Option String :=
  (h.props.reverse.find? (fun p => p.1 == k)).map Prod.snd

def refUrlDefault : String := "https://www.example.com"
def submitterNameDefault : String := "unknown"
def submitterEmailDefault : String := "a@b.c"
def submitterInstitutionDefault : String := "Nowehere"
def caffeineSmiles : String := "CN1C=NC2=C1C(=O)N(C(=O)N2C)C"

/-- generate_header (lines 103-141).  generation_date defaults in the
source to str(date.today()) captured at module load; the ambient date is
passed explicitly here.  Each extras value is attached through str(). -/
def generate_header (method : String)
    (ref_url : String := refUrlDefault)
    (submitter_name : String := submitterNameDefault)
    (submitter_email : String := submitterEmailDefault)
    (submitter_institution : String := submitterInstitutionDefault)
    (generation_date : String := "1970-01-01")
    (smiles : String := caffeineSmiles)
    (extras : List (String × Value) := []) : HeaderMol :=
  let _ := smiles
  { name := "ver_1.2"
    props := [("ref_url", ref_url),
              ("submitter_name", submitter_name),
              ("submitter_email", submitter_email),
              ("submitter_institution", submitter_institution),
              ("generation_date", generation_date),
              ("method", method)]
             ++ extras.map (fun kv => (kv.1, pyStr kv.2)) }

/-- One molecule record as PandasTools.WriteSDF emits it: geometry from the
molecule column, _Name from the name column, and the listed property
columns. -/
structure SDFRecord where
  name : String
  mol : PMol
  props : List (String × Value)
deriving DecidableEq, Repr

/-- row[c] for row index i, Option.none when the column is missing
(pandas KeyError). -/
def rowVal (df : Df) (c : String) (i : ℕ) : Option Value :=
  if hasCol df c then some ((getCol df c).getD i Value.vnan) else Option.none

/-- One row of PandasTools.WriteSDF: fetch the molecule (TypeError when the
cell is not a Mol), the name, and each listed property column (KeyError on
the first missing one). -/
def writeRow (df : Df) (mol_col name_col : String) (props : List String)
    (i : ℕ) : Except String SDFRecord := do
  let mv ← match rowVal df mol_col i with
    | some v => Except.ok v
    | Option.none => Except.error ("KeyError: " ++ mol_col)
  let m ← match mv with
    | Value.vmol m => Except.ok m
    | _ => Except.error "TypeError: molecule column does not hold a Mol"
  let nv ← match rowVal df name_col i with
    | some v => Except.ok v
    | Option.none => Except.error ("KeyError: " ++ name_col)
  let ps ← props.mapM (fun p => match rowVal df p i with
    | some v => Except.ok (p, v)
    | Option.none => Except.error ("KeyError: " ++ p))
  Except.ok { name := pyStr nv, mol := m, props := ps }

/-- PandasTools.WriteSDF over all rows, in order. -/
def writeSDF (df : Df) (mol_col name_col : String) (props : List String) :
    Except String (List SDFRecord) :=
  (List.range (nRows df)).mapM (writeRow df mol_col name_col props)

/-- Observable outcome of a prep call: whether the output file was opened
and the header record written (lines 92-94), the data records written, and
the exception that escaped, if any. -/
structure PrepOutcome where
  headerWritten : Bool
  records : List SDFRecord
  error : Option String
deriving DecidableEq, Repr

/-- Lines 92-96.  The header is written first; then the expression
[ref_pdb, ref_mols, original SMILES] + extra_fields is evaluated, raising
NameError when extra_fields was never bound (the extras auto branch);
otherwise WriteSDF runs. -/
def writeOut (df : Df) (mol_col name_col : String)
    (extra_fields : Option (List String)) : PrepOutcome :=
  match extra_fields with
  | Option.none =>
      { headerWritten := true, records := []
        error := some "NameError: name extra_fields is not defined" }
  | some fs =>
      match writeSDF df mol_col name_col
          (["ref_pdb", "ref_mols", "original SMILES"] ++ fs) with
      | .ok recs => { headerWritten := true, records := recs, error := Option.none }
      | .error e => { headerWritten := true, records := [], error := some e }

/-- A heap of DataFrame objects, addressed by handle: models pandas object
identity so that mutation of the caller's frame is observable. -/
abbrev Heap := List Df

def readH (h : Heap) (i : ℕ) : Df := h.getD i []

def writeH (h : Heap) (i : ℕ) (d : Df) : Heap := h.set i d

/-- Allocate a fresh DataFrame object (df.copy()); its handle is the old
heap length. -/
def allocH (h : Heap) (d : Df) : Heap := h ++ [d]

/-- The keyword arguments of prep (header is passed separately). -/
structure PrepArgs where
  mol_col : String
  name_col : String
  ref_mol_names : Option String := Option.none
  ref_pdb_name : Option String := Option.none
  extras : ExtrasArg := ExtrasArg.nil
  letter_trim : ℕ := 20

/-- prep (lines 30-96) over the heap.  dfH is the caller's DataFrame
handle.  Line 55 rebinds the local name df to rename(...).copy() — a fresh
object c1 — so every later column assignment (recorded with writeH) hits
c1, and line 88 copies again into c2.  Errors raised before line 92 leave
the output file untouched (headerWritten = false). -/
def prepH (h : Heap) (dfH : ℕ) (hdr : HeaderMol) (a : PrepArgs) :
    Heap × PrepOutcome :=
  let df1 := renameTupleCols (readH h dfH)
  let h1 := allocH h df1
  let c1 := h.length
  let h2 := writeH h1 c1 (stepRefMols (readH h1 c1) a.ref_mol_names)
  match stepSmiles (readH h2 c1) a.mol_col with
  | .error e => (h2, { headerWritten := false, records := [], error := some e })
  | .ok dfA1 =>
    let h3 := writeH h2 c1 dfA1
    let h4 := writeH h3 c1 (stepRefPdb (readH h3 c1) a.ref_pdb_name)
    match stepExtras (readH h4 c1) a.extras with
    | .error e => (h4, { headerWritten := false, records := [], error := some e })
    | .ok (dfA3, extra_fields) =>
      let h5 := writeH h4 c1 dfA3
      let h6 := allocH h5 (readH h5 c1)
      let c2 := h5.length
      match stepSanitize (readH h6 c2) a.name_col a.letter_trim with
      | .error e => (h6, { headerWritten := false, records := [], error := some e })
      | .ok dfB =>
        let h7 := writeH h6 c2 dfB
        let _ := hdr
        (h7, writeOut (readH h7 c2) a.mol_col a.name_col extra_fields)

/-- prep on a single caller DataFrame, observing only the outcome. -/
def prep (df : Df) (hdr : HeaderMol) (a : PrepArgs) : PrepOutcome :=
  (prepH [df] 0 hdr a).2

end PrepFragalysis

namespace PrepFragalysis

theorem getAtom_setAtom_self (mol : Mol) (i : ℕ) (a : Atom) :
    getAtom (setAtom mol i a) i = a := by
  simp [getAtom, setAtom]

theorem getAtom_setAtom_ne (mol : Mol) (i j : ℕ) (a : Atom) (h : j ≠ i) :
    getAtom (setAtom mol i a) j = getAtom mol j := by
  simp [getAtom, setAtom, h]

theorem setAtom_numAtoms (mol : Mol) (i : ℕ) (a : Atom) :
    (setAtom mol i a).numAtoms = mol.numAtoms := rfl

theorem updFold_cons (f : Atom → Atom) (x : ℕ) (L : List ℕ) (mol : Mol) :
    updFold f (x :: L) mol = updFold f L (setAtom mol x (f (getAtom mol x))) := rfl

theorem updFold_numAtoms (f : Atom → Atom) (L : List ℕ) (mol : Mol) :
    (updFold f L mol).numAtoms = mol.numAtoms := by
  induction L generalizing mol with
  | nil => rfl
  | cons x L ih => rw [updFold_cons, ih, setAtom_numAtoms]

theorem updFold_not_mem (f : Atom → Atom) (L : List ℕ) (mol : Mol) (i : ℕ)
    (h : i ∉ L) : getAtom (updFold f L mol) i = getAtom mol i := by
  induction L generalizing mol with
  | nil => rfl
  | cons x L ih =>
      rw [updFold_cons, ih _ (fun hm => h (List.mem_cons_of_mem x hm)),
        getAtom_setAtom_ne]
      exact fun hix => h (hix ▸ List.mem_cons_self x L)

theorem updFold_mem (f : Atom → Atom) (L : List ℕ) (mol : Mol) (i : ℕ)
    (hnd : L.Nodup) (h : i ∈ L) :
    getAtom (updFold f L mol) i = f (getAtom mol i) := by
  induction L generalizing mol with
  | nil => cases h
  | cons x L ih =>
      rw [updFold_cons]
      rcases List.mem_cons.mp h with rfl | hmem
      · rw [updFold_not_mem _ _ _ _ (List.nodup_cons.mp hnd).1,
          getAtom_setAtom_self]
      · have hne : i ≠ x := fun hix =>
          (List.nodup_cons.mp hnd).1 (hix ▸ hmem)
        rw [ih _ (List.nodup_cons.mp hnd).2 hmem, getAtom_setAtom_ne _ _ _ _ hne]

theorem unmaskRun_cons_marked (bg : Bool) (x : ℕ) (L : List ℕ) (mol : Mol)
    (h : (getAtom mol x).hasDummyProp = true) :
    unmaskRun bg (x :: L) mol
      = unmaskRun bg L (setAtom mol x (unmaskAtom bg (getAtom mol x))) := by
  simp [unmaskRun, h]

theorem unmaskRun_cons_unmarked (bg : Bool) (x : ℕ) (L : List ℕ) (mol : Mol)
    (h : (getAtom mol x).hasDummyProp = false) :
    unmaskRun bg (x :: L) mol = (mol, false) := by
  simp [unmaskRun, h]

theorem unmaskAtom_hasDummyProp (bg : Bool) (a : Atom) :
    (unmaskAtom bg a).hasDummyProp = a.hasDummyProp := rfl

/-- The unmask loop aborts with a failed assert as soon as some tracked
atom has lost the dummy marker. -/
theorem unmaskRun_fail (bg : Bool) (L : List ℕ) (mol : Mol)
    (h : ∃ i ∈ L, (getAtom mol i).hasDummyProp = false) :
    (unmaskRun bg L mol).2 = false := by
  induction L generalizing mol with
  | nil => simp at h
  | cons x L ih =>
      rcases h with ⟨i, hiL, hbad⟩
      by_cases hx : (getAtom mol x).hasDummyProp = true
      · rw [unmaskRun_cons_marked bg x L mol hx]
        have hix : i ≠ x := fun hde => by rw [hde, hx] at hbad; cases hbad
        have hiL2 : i ∈ L := by
          rcases List.mem_cons.mp hiL with rfl | hm
          · exact absurd hx (by rw [hbad]; simp)
          · exact hm
        exact ih _ ⟨i, hiL2, by rw [getAtom_setAtom_ne _ _ _ _ hix]; exact hbad⟩
      · rw [unmaskRun_cons_unmarked bg x L mol (by simpa using hx)]

theorem unmaskRun_ok (bg : Bool) (L : List ℕ) (mol : Mol)
    (h : ∀ i ∈ L, (getAtom mol i).hasDummyProp = true) :
    (unmaskRun bg L mol).2 = true := by
  induction L generalizing mol with
  | nil => rfl
  | cons x L ih =>
      rw [unmaskRun_cons_marked bg x L mol (h x (List.mem_cons_self x L))]
      refine ih _ (fun i hi => ?_)
      by_cases hix : i = x
      · subst hix
        rw [getAtom_setAtom_self, unmaskAtom_hasDummyProp]
        exact h i (List.mem_cons_self i L)
      · rw [getAtom_setAtom_ne _ _ _ _ hix]
        exact h i (List.mem_cons_of_mem x hi)

theorem unmaskRun_numAtoms (bg : Bool) (L : List ℕ) (mol : Mol) :
    (unmaskRun bg L mol).1.numAtoms = mol.numAtoms := by
  induction L generalizing mol with
  | nil => rfl
  | cons x L ih =>
      by_cases hx : (getAtom mol x).hasDummyProp = true
      · rw [unmaskRun_cons_marked bg x L mol hx, ih, setAtom_numAtoms]
      · rw [unmaskRun_cons_unmarked bg x L mol (by simpa using hx)]

theorem unmaskRun_not_mem (bg : Bool) (L : List ℕ) (mol : Mol) (i : ℕ)
    (h : i ∉ L) : getAtom (unmaskRun bg L mol).1 i = getAtom mol i := by
  induction L generalizing mol with
  | nil => rfl
  | cons x L ih =>
      by_cases hx : (getAtom mol x).hasDummyProp = true
      · rw [unmaskRun_cons_marked bg x L mol hx,
          ih _ (fun hm => h (List.mem_cons_of_mem x hm)), getAtom_setAtom_ne]
        exact fun hix => h (hix ▸ List.mem_cons_self x L)
      · rw [unmaskRun_cons_unmarked bg x L mol (by simpa using hx)]

theorem unmaskRun_mem (bg : Bool) (L : List ℕ) (mol : Mol) (i : ℕ)
    (hnd : L.Nodup) (hmk : ∀ j ∈ L, (getAtom mol j).hasDummyProp = true)
    (h : i ∈ L) :
    getAtom (unmaskRun bg L mol).1 i = unmaskAtom bg (getAtom mol i) := by
  induction L generalizing mol with
  | nil => cases h
  | cons x L ih =>
      rw [unmaskRun_cons_marked bg x L mol (hmk x (List.mem_cons_self x L))]
      rcases List.mem_cons.mp h with rfl | hmem
      · rw [unmaskRun_not_mem _ _ _ _ (List.nodup_cons.mp hnd).1,
          getAtom_setAtom_self]
      · have hne : i ≠ x := fun hix =>
          (List.nodup_cons.mp hnd).1 (hix ▸ hmem)
        rw [ih _ (List.nodup_cons.mp hnd).2 ?_ hmem,
          getAtom_setAtom_ne _ _ _ _ hne]
        intro j hj
        by_cases hjx : j = x
        · subst hjx
          rw [getAtom_setAtom_self, unmaskAtom_hasDummyProp]
          exact hmk j (List.mem_cons_self j L)
        · rw [getAtom_setAtom_ne _ _ _ _ hjx]
          exact hmk j (List.mem_cons_of_mem x hj)

theorem zeroIndices_nodup (mol : Mol) : (zeroIndices mol).Nodup :=
  (List.nodup_range _).filter _

theorem mem_zeroIndices {mol : Mol} {i : ℕ} :
    i ∈ zeroIndices mol ↔ i < mol.numAtoms ∧ (mol.atom i).atomicNum = 0 := by
  simp [zeroIndices, List.mem_filter, List.mem_range]

theorem mkDummyMasker_dummies (mol : Mol) (zahl : ℕ) (bg : Bool) :
    (mkDummyMasker mol zahl bg).dummies = zeroIndices mol := rfl

/-- Pointwise characterisation of mask. -/
theorem mask_spec (m : DummyMasker) (mol : Mol) (hnd : m.dummies.Nodup) :
    (m.mask mol).1 = { m with is_masked := true }
    ∧ (∀ i ∈ m.dummies, getAtom (m.mask mol).2 i = maskAtom m.zahl (getAtom mol i))
    ∧ (∀ i, i ∉ m.dummies → getAtom (m.mask mol).2 i = getAtom mol i)
    ∧ (m.mask mol).2.numAtoms = mol.numAtoms := by
  refine ⟨rfl, fun i hi => ?_, fun i hi => ?_, ?_⟩
  · exact updFold_mem _ _ _ _ hnd hi
  · exact updFold_not_mem _ _ _ _ hi
  · exact updFold_numAtoms _ _ _

/-- Pointwise characterisation of unmask when every tracked atom still
carries the dummy marker: the assert passes and each tracked atom is
restored. -/
theorem unmask_ok_of_marked (m : DummyMasker) (mol : Mol)
    (hnd : m.dummies.Nodup)
    (h : ∀ i ∈ m.dummies, (getAtom mol i).hasDummyProp = true) :
    ∃ pr : DummyMasker × Mol, m.unmask mol = .ok pr
      ∧ pr.1 = { m with is_masked := false }
      ∧ (∀ i ∈ m.dummies,
          getAtom pr.2 i = unmaskAtom m.blank_Gasteiger (getAtom mol i))
      ∧ (∀ i, i ∉ m.dummies → getAtom pr.2 i = getAtom mol i)
      ∧ pr.2.numAtoms = mol.numAtoms := by
  refine ⟨({ m with is_masked := false },
    (unmaskRun m.blank_Gasteiger m.dummies mol).1), ?_, rfl,
    fun i hi => unmaskRun_mem _ _ _ _ hnd h hi,
    fun i hi => unmaskRun_not_mem _ _ _ _ hi,
    unmaskRun_numAtoms _ _ _⟩
  simp [DummyMasker.unmask, unmaskRun_ok _ _ _ h]

/-- mask, then unmask: the assert passes and every tracked atom ends up as
unmaskAtom (maskAtom (original)); untracked atoms are untouched. -/
theorem maskUnmask_spec (mol : Mol) (zahl : ℕ) (bg : Bool) :
    ∃ pr : DummyMasker × Mol,
      ((mkDummyMasker mol zahl bg).mask mol).1.unmask
        ((mkDummyMasker mol zahl bg).mask mol).2 = .ok pr
      ∧ pr.1 = mkDummyMasker mol zahl bg
      ∧ (∀ i ∈ zeroIndices mol,
          getAtom pr.2 i = unmaskAtom bg (maskAtom zahl (getAtom mol i)))
      ∧ (∀ i, i ∉ zeroIndices mol → getAtom pr.2 i = getAtom mol i)
      ∧ pr.2.numAtoms = mol.numAtoms := by
  have hnd : (mkDummyMasker mol zahl bg).dummies.Nodup := zeroIndices_nodup mol
  obtain ⟨hm1, hmem, hnot, hnum⟩ := mask_spec (mkDummyMasker mol zahl bg) mol hnd
  set m1 := ((mkDummyMasker mol zahl bg).mask mol).1 with hm1def
  set mol1 := ((mkDummyMasker mol zahl bg).mask mol).2 with hmol1def
  have hd1 : m1.dummies = zeroIndices mol := by rw [hm1]; rfl
  have hnd1 : m1.dummies.Nodup := by rw [hd1]; exact zeroIndices_nodup mol
  have hmk : ∀ i ∈ m1.dummies, (getAtom mol1 i).hasDummyProp = true := by
    intro i hi
    rw [hd1] at hi
    rw [hmem i hi]
    rfl
  obtain ⟨pr, hok, hpr1, hprmem, hprnot, hprnum⟩ :=
    unmask_ok_of_marked m1 mol1 hnd1 hmk
  refine ⟨pr, hok, ?_, fun i hi => ?_, fun i hi => ?_, ?_⟩
  · rw [hpr1, hm1]; rfl
  · rw [hprmem i (by rw [hd1]; exact hi), hmem i hi, hm1]; rfl
  · rw [hprnot i (by rw [hd1]; exact hi), hnot i hi]
  · rw [hprnum, hnum]

/-- After mask-unmask, the placeholder scan of the molecule is unchanged:
tracked atoms are 0 again and untracked atoms never were 0. -/
theorem zeroIndices_after_roundTrip (mol : Mol) (zahl : ℕ) (bg : Bool)
    (mol2 : Mol) (hnum : mol2.numAtoms = mol.numAtoms)
    (hmem : ∀ i ∈ zeroIndices mol,
      getAtom mol2 i = unmaskAtom bg (maskAtom zahl (getAtom mol i)))
    (hnot : ∀ i, i ∉ zeroIndices mol → getAtom mol2 i = getAtom mol i) :
    zeroIndices mol2 = zeroIndices mol := by
  unfold zeroIndices
  rw [hnum]
  refine List.filter_congr (fun i hi => ?_)
  by_cases hz : i ∈ zeroIndices mol
  · have h2 : getAtom mol2 i = unmaskAtom bg (maskAtom zahl (getAtom mol i)) :=
      hmem i hz
    have hz0 : (mol.atom i).atomicNum = 0 := (mem_zeroIndices.mp hz).2
    show ((mol2.atom i).atomicNum == 0) = ((mol.atom i).atomicNum == 0)
    have : (mol2.atom i).atomicNum = 0 := by
      show (getAtom mol2 i).atomicNum = 0
      rw [h2]
      rfl
    rw [this, hz0]
  · show ((mol2.atom i).atomicNum == 0) = ((mol.atom i).atomicNum == 0)
    have : getAtom mol2 i = getAtom mol i := hnot i hz
    rw [show (mol2.atom i) = getAtom mol2 i from rfl, this]
    rfl

/-- For any body molecule that kept the dummy markers on the tracked atoms,
unmasking it from the post-mask masker state succeeds and zeroes the
tracked atoms. -/
theorem unmask_after_mask_restores (mol molb : Mol) (zahl : ℕ) (bg : Bool)
    (hb : ∀ i ∈ (mkDummyMasker mol zahl bg).dummies,
      (getAtom molb i).hasDummyProp = true) :
    ∃ pr : DummyMasker × Mol,
      ((mkDummyMasker mol zahl bg).mask mol).1.unmask molb = .ok pr
      ∧ ∀ i ∈ (mkDummyMasker mol zahl bg).dummies,
          (getAtom pr.2 i).atomicNum = 0 := by
  have hnd : ((mkDummyMasker mol zahl bg).mask mol).1.dummies.Nodup :=
    zeroIndices_nodup mol
  obtain ⟨pr, hok, _, hprmem, _, _⟩ :=
    unmask_ok_of_marked ((mkDummyMasker mol zahl bg).mask mol).1 molb hnd hb
  refine ⟨pr, hok, fun i hi => ?_⟩
  rw [hprmem i hi]
  rfl

/-- C1: constructing a DummyMasker scans the molecule for sentinel-0 atoms
once; after mask then unmask every tracked placeholder atom has atomic
number 0 again and both the tracked list and the placeholder scan of the
molecule are exactly the construction-time ones; used as a context
manager, mask runs on entry and unmask runs on every exit path (normal
return or raised exception), so the restoration holds at scope exit even
when the body raises (provided the body left the dummy markers in place,
which the unmask assert demands). -/
theorem masker_round_trip_and_scoped_restore
    (mol : Mol) (zahl : ℕ) (bg : Bool) {α : Type} (a : α) (e : String)
    (molb : Mol)
    (hb : ∀ i ∈ (mkDummyMasker mol zahl bg).dummies,
      (getAtom molb i).hasDummyProp = true) :
    (∃ pr : DummyMasker × Mol,
      ((mkDummyMasker mol zahl bg).mask mol).1.unmask
          ((mkDummyMasker mol zahl bg).mask mol).2 = .ok pr
      ∧ (∀ i ∈ (mkDummyMasker mol zahl bg).dummies,
          (getAtom pr.2 i).atomicNum = 0)
      ∧ pr.1.dummies = (mkDummyMasker mol zahl bg).dummies
      ∧ (mkDummyMasker mol zahl bg).dummies = zeroIndices mol
      ∧ zeroIndices pr.2 = zeroIndices mol)
    ∧ ((withMasker (mkDummyMasker mol zahl bg) mol
          (fun _ => BodyResult.normal a molb)).outcome = .ok a
       ∧ ∀ i ∈ (mkDummyMasker mol zahl bg).dummies,
          (getAtom (withMasker (mkDummyMasker mol zahl bg) mol
            (fun _ => BodyResult.normal a molb)).mol i).atomicNum = 0)
    ∧ ((withMasker (mkDummyMasker mol zahl bg) mol
          (fun _ => (BodyResult.raised e molb : BodyResult α))).outcome = .error e
       ∧ ∀ i ∈ (mkDummyMasker mol zahl bg).dummies,
          (getAtom (withMasker (mkDummyMasker mol zahl bg) mol
            (fun _ => (BodyResult.raised e molb : BodyResult α))).mol i).atomicNum = 0) := by
  obtain ⟨prb, hokb, hzb⟩ := unmask_after_mask_restores mol molb zahl bg hb
  refine ⟨?_, ?_, ?_⟩
  · obtain ⟨pr, hok, hpr1, hmem, hnot, hnum⟩ := maskUnmask_spec mol zahl bg
    refine ⟨pr, hok, fun i hi => ?_, ?_, rfl, ?_⟩
    · rw [hmem i hi]
      rfl
    · rw [hpr1]
    · exact zeroIndices_after_roundTrip mol zahl bg pr.2 hnum hmem hnot
  · constructor
    · show (withMasker _ _ _).outcome = _
      simp [withMasker, hokb]
    · intro i hi
      have : (withMasker (mkDummyMasker mol zahl bg) mol
          (fun _ => BodyResult.normal a molb)).mol = prb.2 := by
        simp [withMasker, hokb]
      rw [this]
      exact hzb i hi
  · constructor
    · show (withMasker _ _ _).outcome = _
      simp [withMasker, hokb]
    · intro i hi
      have : (withMasker (mkDummyMasker mol zahl bg) mol
          (fun _ => (BodyResult.raised e molb : BodyResult α))).mol = prb.2 := by
        simp [withMasker, hokb]
      rw [this]
      exact hzb i hi

/-- Concrete three-atom molecule with placeholder atoms at indices 0 and 2
(index 0 carrying a Gasteiger charge), used by the witnesses. -/
def molX : Mol :=
  ⟨3, fun i =>
    if i = 0 then ⟨0, .UNSPECIFIED, false, some (mkRat 1 2)⟩
    else if i = 1 then ⟨6, .SP2, false, Option.none⟩
    else ⟨0, .SP, false, Option.none⟩⟩

/-- molX after mask with the defaults. -/
def molXb : Mol := ((mkDummyMasker molX 6 true).mask molX).2

/-- Witness for C1: the round trip and both scope exits at molX, with a
body leaving the masked molecule as mask produced it. -/
theorem masker_round_trip_and_scoped_restore_witness :
    (∀ i ∈ (mkDummyMasker molX 6 true).dummies,
      (getAtom molXb i).hasDummyProp = true)
    ∧ ((∃ pr : DummyMasker × Mol,
        ((mkDummyMasker molX 6 true).mask molX).1.unmask
            ((mkDummyMasker molX 6 true).mask molX).2 = .ok pr
        ∧ (∀ i ∈ (mkDummyMasker molX 6 true).dummies,
            (getAtom pr.2 i).atomicNum = 0)
        ∧ pr.1.dummies = (mkDummyMasker molX 6 true).dummies
        ∧ (mkDummyMasker molX 6 true).dummies = zeroIndices molX
        ∧ zeroIndices pr.2 = zeroIndices molX)
      ∧ ((withMasker (mkDummyMasker molX 6 true) molX
            (fun _ => BodyResult.normal (37 : ℕ) molXb)).outcome = .ok 37
         ∧ ∀ i ∈ (mkDummyMasker molX 6 true).dummies,
            (getAtom (withMasker (mkDummyMasker molX 6 true) molX
              (fun _ => BodyResult.normal (37 : ℕ) molXb)).mol i).atomicNum = 0)
      ∧ ((withMasker (mkDummyMasker molX 6 true) molX
            (fun _ => (BodyResult.raised "boom" molXb : BodyResult ℕ))).outcome
              = .error "boom"
         ∧ ∀ i ∈ (mkDummyMasker molX 6 true).dummies,
            (getAtom (withMasker (mkDummyMasker molX 6 true) molX
              (fun _ => (BodyResult.raised "boom" molXb : BodyResult ℕ))).mol
                i).atomicNum = 0)) :=
  ⟨by decide,
   masker_round_trip_and_scoped_restore molX 6 true (37 : ℕ) "boom" molXb
     (by decide)⟩

/-- C6: if any tracked placeholder atom no longer carries the boolean dummy
marker when unmask is invoked, unmask raises the assertion error instead of
silently restoring atomic numbers. -/
theorem unmask_asserts_marker_presence (m : DummyMasker) (mol : Mol)
    (h : ∃ i ∈ m.dummies, (getAtom mol i).hasDummyProp = false) :
    m.unmask mol = .error assertMsg := by
  have hf := unmaskRun_fail m.blank_Gasteiger m.dummies mol h
  simp [DummyMasker.unmask, hf]

/-- The post-mask masker state over molX. -/
def mX1 : DummyMasker := ((mkDummyMasker molX 6 true).mask molX).1

/-- molXb with the dummy marker stripped from tracked atom 0 (an
independent modification while masked). -/
def molXstripped : Mol :=
  setAtom molXb 0 { getAtom molXb 0 with hasDummyProp := false }

/-- Witness for C6: stripping the marker from one tracked atom of the
masked molX makes unmask fail with the assertion error. -/
theorem unmask_asserts_marker_presence_witness :
    (∃ i ∈ mX1.dummies, (getAtom molXstripped i).hasDummyProp = false)
    ∧ mX1.unmask molXstripped = .error assertMsg :=
  ⟨by decide, unmask_asserts_marker_presence mX1 molXstripped (by decide)⟩

/-- C7: for a tracked placeholder atom carrying a Gasteiger charge before
masking, the mask-unmask round trip with blank_Gasteiger = True leaves that
charge exactly 0.0, and with blank_Gasteiger = False leaves it untouched. -/
theorem unmask_gasteiger_blanking (mol : Mol) (zahl : ℕ) (i : ℕ)
    (hi : i ∈ (mkDummyMasker mol zahl true).dummies) :
    (∃ pr : DummyMasker × Mol,
      ((mkDummyMasker mol zahl true).mask mol).1.unmask
          ((mkDummyMasker mol zahl true).mask mol).2 = .ok pr
      ∧ ((getAtom mol i).gasteiger.isSome = true →
          (getAtom pr.2 i).gasteiger = some 0))
    ∧ (∃ pr : DummyMasker × Mol,
      ((mkDummyMasker mol zahl false).mask mol).1.unmask
          ((mkDummyMasker mol zahl false).mask mol).2 = .ok pr
      ∧ (getAtom pr.2 i).gasteiger = (getAtom mol i).gasteiger) := by
  constructor
  · obtain ⟨pr, hok, _, hmem, _, _⟩ := maskUnmask_spec mol zahl true
    refine ⟨pr, hok, fun hsome => ?_⟩
    rw [hmem i hi]
    simp [unmaskAtom, maskAtom, hsome]
  · obtain ⟨pr, hok, _, hmem, _, _⟩ := maskUnmask_spec mol zahl false
    refine ⟨pr, hok, ?_⟩
    rw [hmem i hi]
    simp [unmaskAtom, maskAtom]

/-- Witness for C7 at molX, whose tracked atom 0 carries charge 1/2. -/
theorem unmask_gasteiger_blanking_witness :
    (0 ∈ (mkDummyMasker molX 6 true).dummies)
    ∧ ((∃ pr : DummyMasker × Mol,
        ((mkDummyMasker molX 6 true).mask molX).1.unmask
            ((mkDummyMasker molX 6 true).mask molX).2 = .ok pr
        ∧ ((getAtom molX 0).gasteiger.isSome = true →
            (getAtom pr.2 0).gasteiger = some 0))
      ∧ (∃ pr : DummyMasker × Mol,
        ((mkDummyMasker molX 6 false).mask molX).1.unmask
            ((mkDummyMasker molX 6 false).mask molX).2 = .ok pr
        ∧ (getAtom pr.2 0).gasteiger = (getAtom molX 0).gasteiger)) :=
  ⟨by decide, unmask_gasteiger_blanking molX 6 0 (by decide)⟩

/-- C9: the round trip is not a full restore: after mask then unmask a
tracked placeholder atom keeps the SP3 hybridization and the boolean dummy
marker that mask wrote; only the atomic number is back to 0. -/
theorem mask_effects_persist_after_unmask (mol : Mol) (zahl : ℕ) (bg : Bool)
    (i : ℕ) (hi : i ∈ (mkDummyMasker mol zahl bg).dummies) :
    ∃ pr : DummyMasker × Mol,
      ((mkDummyMasker mol zahl bg).mask mol).1.unmask
          ((mkDummyMasker mol zahl bg).mask mol).2 = .ok pr
      ∧ (getAtom pr.2 i).hybridization = Hybridization.SP3
      ∧ (getAtom pr.2 i).hasDummyProp = true
      ∧ (getAtom pr.2 i).atomicNum = 0 := by
  obtain ⟨pr, hok, _, hmem, _, _⟩ := maskUnmask_spec mol zahl bg
  refine ⟨pr, hok, ?_, ?_, ?_⟩ <;> rw [hmem i hi] <;> rfl

/-- Witness for C9 at molX, tracked atom 2. -/
theorem mask_effects_persist_after_unmask_witness :
    (2 ∈ (mkDummyMasker molX 6 true).dummies)
    ∧ (∃ pr : DummyMasker × Mol,
      ((mkDummyMasker molX 6 true).mask molX).1.unmask
          ((mkDummyMasker molX 6 true).mask molX).2 = .ok pr
      ∧ (getAtom pr.2 2).hybridization = Hybridization.SP3
      ∧ (getAtom pr.2 2).hasDummyProp = true
      ∧ (getAtom pr.2 2).atomicNum = 0) :=
  ⟨by decide, mask_effects_persist_after_unmask molX 6 true 2 (by decide)⟩

/-- A concrete rigid transform (unit translation along x) for the align
counterexample. -/
def shiftX : RotoTrans := fun p => (p.1 + 1, p.2.1, p.2.2)

/-- A concrete stand-in for GetAlignmentTransform returning shiftX. -/
def gatShift : RMol → RMol → RotoTrans := fun _ _ => shiftX

/-- A two-atom molecule with one conformer. -/
def rmolX : RMol := ⟨[6, 6], [[(0, 0, 0), (1, 0, 0)]]⟩

/-- C2 (documents the defect): align replaces every series entry by a fresh
empty Chem.Mol() and then asks the empty molecule for its conformer, so on
any nonempty series it raises the Bad Conformer Id error instead of
returning transformed copies of the inputs; the behaviour the spec states
(alignSpec, modelled from the spec) returns the transformed copies. -/
theorem align_discards_inputs_and_raises :
    (∀ (gat : RMol → RMol → RotoTrans) (m : RMol) (series : List RMol)
      (ref_hit used_hit : RMol),
      align gat (m :: series) ref_hit used_hit = .error "Bad Conformer Id")
    ∧ align gatShift [rmolX] rmolX rmolX = .error "Bad Conformer Id"
    ∧ alignSpec gatShift [rmolX] rmolX rmolX
        = [⟨[6, 6], [[(1, 0, 0), (2, 0, 0)]]⟩] := by
  refine ⟨fun gat m series ref_hit used_hit => rfl, rfl, ?_⟩
  show [_] = _
  norm_num [alignSpec, transformConformer, rmolX, gatShift, shiftX]

/-- C8: generate_header("m1") yields a record whose annotations carry
method = "m1" and the five other provenance fields at their default values
(the generation-date default is whatever str(date.today()) produced at
module load, passed here as today), and extras x = 1 becomes the string
annotation x = "1". -/
theorem generate_header_fields (today : String) :
    ((generate_header "m1" refUrlDefault submitterNameDefault
        submitterEmailDefault submitterInstitutionDefault today
        caffeineSmiles []).getProp "method" = some "m1")
    ∧ ((generate_header "m1" refUrlDefault submitterNameDefault
        submitterEmailDefault submitterInstitutionDefault today
        caffeineSmiles []).getProp "ref_url" = some "https://www.example.com")
    ∧ ((generate_header "m1" refUrlDefault submitterNameDefault
        submitterEmailDefault submitterInstitutionDefault today
        caffeineSmiles []).getProp "submitter_name" = some "unknown")
    ∧ ((generate_header "m1" refUrlDefault submitterNameDefault
        submitterEmailDefault submitterInstitutionDefault today
        caffeineSmiles []).getProp "submitter_email" = some "a@b.c")
    ∧ ((generate_header "m1" refUrlDefault submitterNameDefault
        submitterEmailDefault submitterInstitutionDefault today
        caffeineSmiles []).getProp "submitter_institution" = some "Nowehere")
    ∧ ((generate_header "m1" refUrlDefault submitterNameDefault
        submitterEmailDefault submitterInstitutionDefault today
        caffeineSmiles []).getProp "generation_date" = some today)
    ∧ ((generate_header "m1" refUrlDefault submitterNameDefault
        submitterEmailDefault submitterInstitutionDefault today
        caffeineSmiles [("x", Value.vint 1)]).getProp "x" = some "1") :=
  ⟨rfl, rfl, rfl, rfl, rfl, rfl, rfl⟩

/-- Witness for C8 at a fixed ambient date. -/
theorem generate_header_fields_witness :
    ((generate_header "m1" refUrlDefault submitterNameDefault
        submitterEmailDefault submitterInstitutionDefault "2025-01-01"
        caffeineSmiles []).getProp "method" = some "m1")
    ∧ ((generate_header "m1" refUrlDefault submitterNameDefault
        submitterEmailDefault submitterInstitutionDefault "2025-01-01"
        caffeineSmiles []).getProp "ref_url" = some "https://www.example.com")
    ∧ ((generate_header "m1" refUrlDefault submitterNameDefault
        submitterEmailDefault submitterInstitutionDefault "2025-01-01"
        caffeineSmiles []).getProp "submitter_name" = some "unknown")
    ∧ ((generate_header "m1" refUrlDefault submitterNameDefault
        submitterEmailDefault submitterInstitutionDefault "2025-01-01"
        caffeineSmiles []).getProp "submitter_email" = some "a@b.c")
    ∧ ((generate_header "m1" refUrlDefault submitterNameDefault
        submitterEmailDefault submitterInstitutionDefault "2025-01-01"
        caffeineSmiles []).getProp "submitter_institution" = some "Nowehere")
    ∧ ((generate_header "m1" refUrlDefault submitterNameDefault
        submitterEmailDefault submitterInstitutionDefault "2025-01-01"
        caffeineSmiles []).getProp "generation_date" = some "2025-01-01")
    ∧ ((generate_header "m1" refUrlDefault submitterNameDefault
        submitterEmailDefault submitterInstitutionDefault "2025-01-01"
        caffeineSmiles [("x", Value.vint 1)]).getProp "x" = some "1") :=
  generate_header_fields "2025-01-01"

/-- Concrete molecules for the prep datasets. -/
def pmA : PMol := ⟨"CC"⟩
def pmB : PMol := ⟨"CCO"⟩
def pmC : PMol := ⟨"CCN"⟩

/-- A header for the prep calls. -/
def hdr0 : HeaderMol := generate_header "m1"

/-- One-row dataset with only name and mol columns. -/
def c3df : Df :=
  [(ColKey.str "name", [Value.vstr "n1"]),
   (ColKey.str "mol", [Value.vmol pmA])]

/-- Zero-row dataset with only name and mol columns. -/
def c3df0 : Df :=
  [(ColKey.str "name", []), (ColKey.str "mol", [])]

/-- C3 (documents the defect): when ref_mols is absent and ref_mol_names is
None, prep does not raise a configuration error: the source evaluates
ValueError(...) without raising it, so prep proceeds, opens the output
file, writes the header record, and only then dies inside WriteSDF with a
bare KeyError — and on a zero-row frame it completes with no error at all.
The ref_pdb case behaves the same way. -/
theorem prep_swallows_missing_ref_errors :
    prep c3df hdr0
      { mol_col := "mol", name_col := "name", ref_pdb_name := some "5ABC" }
      = ⟨true, [], some "KeyError: ref_mols"⟩
    ∧ prep c3df0 hdr0
      { mol_col := "mol", name_col := "name", ref_pdb_name := some "5ABC" }
      = ⟨true, [], Option.none⟩
    ∧ prep c3df hdr0
      { mol_col := "mol", name_col := "name", ref_mol_names := some "HIT1" }
      = ⟨true, [], some "KeyError: ref_pdb"⟩ :=
  ⟨rfl, rfl, rfl⟩

/-- Dataset for the extras auto-detection scenario: score = [1.0, 0.0, 0.0]
and flag = [0, 0, 0] beside the name and mol columns. -/
def c4df : Df :=
  [(ColKey.str "name", [Value.vstr "m1", Value.vstr "m2", Value.vstr "m3"]),
   (ColKey.str "mol", [Value.vmol pmA, Value.vmol pmB, Value.vmol pmC]),
   (ColKey.str "score", [Value.vnum 1, Value.vnum 0, Value.vnum 0]),
   (ColKey.str "flag", [Value.vint 0, Value.vint 0, Value.vint 0])]

/-- prep arguments with extras = True (the auto sentinel). -/
def c4args : PrepArgs :=
  { mol_col := "mol", name_col := "name",
    ref_mol_names := some "HIT1", ref_pdb_name := some "5ABC",
    extras := ExtrasArg.auto }

/-- C4 (documents the defect): the auto scan itself selects exactly the
score column (nonzero coerced sum) and excludes flag and every non-numeric
column, but the auto branch binds the selection to the name extras and
never assigns extra_fields, so prep then crashes with a NameError after
writing only the header — it does not complete and write the selected
column. -/
theorem prep_extras_auto_selects_score_but_crashes :
    (∃ dfmid : Df,
      stepSmiles (stepRefMols (renameTupleCols c4df) (some "HIT1")) "mol"
        = .ok dfmid
      ∧ (autoScan (stepRefPdb dfmid (some "5ABC"))).2 = ["score"])
    ∧ prep c4df hdr0 c4args
      = ⟨true, [], some "NameError: name extra_fields is not defined"⟩ := by
  refine ⟨⟨_, rfl, by decide⟩, by decide⟩

/-- Dataset for the name-sanitization scenario. -/
def c5df : Df :=
  [(ColKey.str "name",
    [Value.vstr "My Compound #1",
     Value.vstr (String.mk (List.replicate 30 'a'))]),
   (ColKey.str "mol", [Value.vmol pmA, Value.vmol pmB])]

/-- prep arguments for the name-sanitization scenario (extras = None). -/
def c5args : PrepArgs :=
  { mol_col := "mol", name_col := "name",
    ref_mol_names := some "HIT1", ref_pdb_name := some "5ABC" }

/-- C5: prep sanitizes every name-column value by string coercion,
replacement of each non-word character by an underscore, and truncation to
letter_trim characters: with the default 20, "My Compound #1" is written as
"My_Compound__1" and thirty a-characters as twenty; in general the
sanitized name is at most letter_trim long and made of word characters
only. -/
theorem prep_sanitizes_names :
    ((prep c5df hdr0 c5args).error = Option.none
      ∧ (prep c5df hdr0 c5args).records.map SDFRecord.name
          = ["My_Compound__1", String.mk (List.replicate 20 'a')])
    ∧ (∀ (letter_trim : ℕ) (cs : List Char),
        ((sanitizeChars cs).take letter_trim).length ≤ letter_trim
        ∧ ((sanitizeChars cs).take letter_trim).all pyIsWordChar = true) := by
  refine ⟨by decide, fun letter_trim cs => ⟨?_, ?_⟩⟩
  · rw [List.length_take]
    exact min_le_left _ _
  · rw [List.all_eq_true]
    intro c hc
    have hc2 := List.mem_of_mem_take hc
    obtain ⟨a, _, ha⟩ := List.mem_map.mp hc2
    by_cases hw : pyIsWordChar a = true
    · rw [← ha, if_pos hw]
      exact hw
    · rw [← ha, if_neg hw]
      decide

theorem getD_append_lt {α : Type} (l m : List α) (x : α) (i : ℕ)
    (hi : i < l.length) : (l ++ m).getD i x = l.getD i x := by
  induction l generalizing i with
  | nil => cases hi
  | cons a as ih =>
      cases i with
      | zero => rfl
      | succ n =>
          have : n < as.length := Nat.lt_of_succ_lt_succ hi
          simpa [List.getD] using
            (by simpa [List.getD] using ih n this : (as ++ m).getD n x = as.getD n x)

theorem getD_set_ne {α : Type} (l : List α) (j i : ℕ) (a x : α)
    (hij : i ≠ j) : (l.set j a).getD i x = l.getD i x := by
  induction l generalizing i j with
  | nil => rfl
  | cons b bs ih =>
      cases j with
      | zero =>
          cases i with
          | zero => exact absurd rfl hij
          | succ n => rfl
      | succ m =>
          cases i with
          | zero => rfl
          | succ n =>
              have : n ≠ m := fun h => hij (by rw [h])
              simpa [List.getD] using
                (by simpa [List.getD] using ih m n this :
                  (bs.set m a).getD n x = bs.getD n x)

theorem readH_allocH (h : Heap) (d : Df) (i : ℕ) (hi : i < h.length) :
    readH (allocH h d) i = readH h i :=
  getD_append_lt h [d] [] i hi

theorem readH_writeH_ne (h : Heap) (j i : ℕ) (d : Df) (hij : i ≠ j) :
    readH (writeH h j d) i = readH h i :=
  getD_set_ne h j i d [] hij

theorem writeH_length (h : Heap) (j : ℕ) (d : Df) :
    (writeH h j d).length = h.length := List.length_set h j d

theorem allocH_length (h : Heap) (d : Df) :
    (allocH h d).length = h.length + 1 := by
  simp [allocH]

/-- C10: prep never mutates the caller's DataFrame object: line 55 rebinds
the local name to rename(...).copy() before any column assignment, so every
write lands on the fresh copies and the caller's heap slot is bit-for-bit
unchanged whether prep succeeds or fails. -/
theorem prep_leaves_caller_df_intact (h : Heap) (dfH : ℕ) (hdr : HeaderMol)
    (a : PrepArgs) (hlt : dfH < h.length) :
    readH (prepH h dfH hdr a).1 dfH = readH h dfH := by
  have h1 : dfH ≠ h.length := Nat.ne_of_lt hlt
  have h2 : dfH < h.length + 1 := Nat.lt_succ_of_lt hlt
  have h3 : dfH ≠ h.length + 1 := Nat.ne_of_lt h2
  simp only [prepH]
  split
  · simp [readH_writeH_ne, readH_allocH, writeH_length, allocH_length,
      h1, h2, h3, hlt]
  · split
    · simp [readH_writeH_ne, readH_allocH, writeH_length, allocH_length,
        h1, h2, h3, hlt]
    · split
      · simp [readH_writeH_ne, readH_allocH, writeH_length, allocH_length,
          h1, h2, h3, hlt]
      · simp [readH_writeH_ne, readH_allocH, writeH_length, allocH_length,
          h1, h2, h3, hlt]

/-- Witness for C10: the caller's slot of a one-frame heap is unchanged by
a successful prep call. -/
theorem prep_leaves_caller_df_intact_witness :
    0 < ([c5df] : Heap).length
    ∧ readH (prepH [c5df] 0 hdr0 c5args).1 0 = readH [c5df] 0 :=
  ⟨by decide, prep_leaves_caller_df_intact [c5df] 0 hdr0 c5args (by decide)⟩

end PrepFragalysis
